import Mathlib

/-!
Shallow embedding of the book-stall reservation system's reservation
logic, taken from the repository's two front-ends (vendor portal and
employee portal) plus a spec-modelled allocation engine for the
server-side approve transition (whose implementation is not part of the
checked sources).

Reservation statuses travel as plain strings in the front-end code
("pending", "confirmed", "cancelled", ...), so the embedding keeps them
as String and mirrors the ad hoc string comparisons of the source.
-/

/-- A stall record as the vendor portal receives it: identifier, display
name, size category, dimensions, price and the derived reservation flag. -/
structure Stall where
  id : Nat
  name : String
  size : String
  dimensions : String
  price : Nat
  is_reserved : Bool
deriving DecidableEq, Repr

/-- A reservation record as both portals receive it: identifier, stall
reference, loosely-typed status string, credential payload and free note. -/
structure Reservation where
  id : Nat
  stall_id : Nat
  status : String
  qr_data : String
  notes : String
deriving DecidableEq, Repr

/-- `userReservations.some(res => res.stall_id === stall.id && res.status === 'confirmed')`
from handleSelectStall in the vendor portal Stalls page. -/
def hasConfirmedOn (userReservations : List Reservation) (stall : Stall) : Bool :=
  userReservations.any (fun res => res.stall_id == stall.id && res.status == "confirmed")

/-- `userReservations.filter(r => r.status === 'confirmed').length` from
handleSelectStall in the vendor portal Stalls page. -/
def confirmedReservationCount (userReservations : List Reservation) : Nat :=
  (userReservations.filter (fun r => r.status == "confirmed")).length

/-- Outcome of a stall click in the vendor portal: one of the three toast
errors (each returning before the modal is opened) or opening the
reservation modal for the stall. The create-reservation API call is only
issued from inside that modal (handleConfirmReservation), so an error
outcome also means no reservation request is made. -/
inductive SelectOutcome where
  | errAlreadyReserved
  | errAlreadyOwn
  | errMaxThree
  | openModal (stall : Stall)
deriving DecidableEq, Repr

/-- handleSelectStall from the vendor portal Stalls page: guard chain of
"This stall is already reserved", "You have already reserved this stall",
"Maximum 3 stalls per business allowed", else open the reservation modal. -/
def handleSelectStall (userReservations : List Reservation) (stall : Stall) : SelectOutcome :=
  let reserved := hasConfirmedOn userReservations stall
  if stall.is_reserved && !reserved then .errAlreadyReserved
  else if reserved then .errAlreadyOwn
  else if 3 ≤ confirmedReservationCount userReservations then .errMaxThree
  else .openModal stall

/-- Whether the outcome opens the reservation modal (the only path from
which a create-reservation call can later be issued). -/
def opensReservationModal : SelectOutcome → Bool
  | .openModal _ => true
  | _ => false

/-- The stall card click handler
`onClick={() => !stall.is_reserved && handleSelectStall(stall)}`:
handleSelectStall is not even invoked when the stall is flagged reserved. -/
def stallCardOnClick (userReservations : List Reservation) (stall : Stall) :
    Option SelectOutcome :=
  if !stall.is_reserved then some (handleSelectStall userReservations stall) else none

example :
    handleSelectStall [⟨1, 2, "confirmed", "q", ""⟩, ⟨2, 3, "confirmed", "q", ""⟩,
      ⟨3, 4, "confirmed", "q", ""⟩] ⟨9, "A9", "small", "2x2", 5000, false⟩
      = SelectOutcome.errMaxThree := by decide

example :
    handleSelectStall [] ⟨9, "A9", "small", "2x2", 5000, true⟩
      = SelectOutcome.errAlreadyReserved := by decide

/-- Actions a staff member can trigger on an expanded reservation in the
employee portal Reservations page. approve invokes
employeeAPI.approveReservation, reject invokes
employeeAPI.rejectReservation, cancel invokes
employeeAPI.cancelReservation. -/
inductive StaffAction where
  | approve
  | reject
  | cancel
deriving DecidableEq, Repr

/-- The action buttons rendered for an expanded reservation in the
employee portal Reservations page: the `res.status === 'pending'` branch
renders Approve Request and Reject Request, the `res.status === 'confirmed'`
branch renders Cancel Reservation, and no other status renders any action. -/
def staffActions (status : String) : List StaffAction :=
  if status == "pending" then [.approve, .reject]
  else if status == "confirmed" then [.cancel]
  else []

/-- Actions rendered in the expanded view of a reservation in the vendor
portal Dashboard. cancelRequest and cancelBooking both invoke
reservationAPI.cancelReservation via handleCancelReservation. -/
inductive VendorAction where
  | cancelRequest
  | downloadQR
  | cancelBooking
deriving DecidableEq, Repr

/-- The three expanded-view panels of the vendor portal Dashboard, chosen
by the ternary chain `res.status === 'pending' ? ... : res.status === 'confirmed' ? ... : ...`. -/
inductive VendorPanel where
  | pendingView
  | confirmedView
  | cancelledView
deriving DecidableEq, Repr

/-- Panel selection for an expanded reservation in the vendor portal
Dashboard, mirroring the JSX ternary chain on res.status. -/
def vendorExpandedPanel (status : String) : VendorPanel :=
  if status == "pending" then .pendingView
  else if status == "confirmed" then .confirmedView
  else .cancelledView

/-- Which panel contains the QR credential section (QRCodeCanvas over
res.qr_data): only the confirmed-status panel renders it. -/
def panelShowsQR : VendorPanel → Bool
  | .confirmedView => true
  | _ => false

/-- The action buttons each vendor Dashboard panel renders: the pending
panel has Cancel Request, the confirmed panel has Download QR and Cancel
Booking, the cancelled panel has none. -/
def panelActions : VendorPanel → List VendorAction
  | .pendingView => [.cancelRequest]
  | .confirmedView => [.downloadQR, .cancelBooking]
  | .cancelledView => []

/-- Whether the vendor Dashboard offers a cancel action (either Cancel
Request or Cancel Booking, both invoking the cancel endpoint) for a
reservation of the given status. -/
def vendorOffersCancel (status : String) : Bool :=
  (panelActions (vendorExpandedPanel status)).contains .cancelRequest
    || (panelActions (vendorExpandedPanel status)).contains .cancelBooking

/-- Whether the employee portal offers the Cancel Reservation action for
a reservation of the given status. -/
def staffOffersCancel (status : String) : Bool :=
  (staffActions status).contains .cancel

/-- Local-state update performed by handleApproveReservation after a
successful approve API call:
`reservations.map(r => r.id === reservation.id ? { ...r, status: 'confirmed' } : r)`. -/
def approveLocalUpdate (reservations : List Reservation) (rid : Nat) : List Reservation :=
  reservations.map (fun r => if r.id == rid then { r with status := "confirmed" } else r)

/-- Local-state update performed by handleCancelReservation after a
successful cancel API call:
`reservations.filter(r => r.id !== reservation.id)` — the cancelled
reservation is removed from the employee portal list. -/
def cancelLocalUpdate (reservations : List Reservation) (rid : Nat) : List Reservation :=
  reservations.filter (fun r => !(r.id == rid))

/-- Local-state update performed by handleRejectReservation after a
successful reject API call:
`reservations.filter(r => r.id !== reservation.id)` — the rejected
reservation is removed from the employee portal list. -/
def rejectLocalUpdate (reservations : List Reservation) (rid : Nat) : List Reservation :=
  reservations.filter (fun r => !(r.id == rid))

/-- The reason string sent by handleRejectReservation:
`reason || 'No reason provided'` — the empty string is the only falsy
string, so it is replaced by the default. -/
def rejectSentReason (reason : String) : String :=
  if reason == "" then "No reason provided" else reason

/-- Result of running handleRejectReservation: either no action at all
(the window.prompt dialog was dismissed, returning null) or a reject API
call carrying the sent reason followed by the local-state removal. -/
inductive RejectOutcome where
  | noAction
  | apiReject (sentReason : String) (newList : List Reservation)
deriving DecidableEq, Repr

/-- handleRejectReservation from the employee portal Reservations page.
The prompt result is None for a dismissed dialog (null) and some s for an
entered string s; on null the handler returns before any API call. -/
def handleRejectReservation (promptResult : Option String)
    (reservations : List Reservation) (rid : Nat) : RejectOutcome :=
  match promptResult with
  | none => .noAction
  | some reason => .apiReject (rejectSentReason reason) (rejectLocalUpdate reservations rid)

/-- The reason carried by the reject API call, if one was made. -/
def sentReasonOf : RejectOutcome → Option String
  | .noAction => none
  | .apiReject s _ => some s

/-- The reservations list after the handler ran: unchanged when no API
call was made. -/
def listAfterReject (outcome : RejectOutcome) (reservations : List Reservation) :
    List Reservation :=
  match outcome with
  | .noAction => reservations
  | .apiReject _ newList => newList

example : staffActions "pending" = [.approve, .reject] := by decide
example : staffOffersCancel "pending" = false := by decide
example : vendorOffersCancel "pending" = true := by decide
example : handleRejectReservation (some "") [] 1
    = .apiReject "No reason provided" [] := by decide

namespace Engine

/-- Modelled from the spec: the closed status enumeration of the
Allocation Engine state machine (the server-side engine is not among the
checked sources; only its front-end callers are). -/
inductive EStatus where
  | pending
  | confirmed
  | rejected
  | cancelled
deriving DecidableEq, Repr

/-- Modelled from the spec: a Reservation Ledger record with its vendor
and stall references and current status. -/
structure ERes where
  id : Nat
  vendorId : Nat
  stallId : Nat
  status : EStatus
deriving DecidableEq, Repr

/-- The count of a vendor's ledger reservations currently Confirmed. -/
def vendorConfirmedCount (ledger : List ERes) (v : Nat) : Nat :=
  (ledger.filter (fun r => r.vendorId == v && r.status == EStatus.confirmed)).length

/-- Modelled from the spec: the typed errors approve can return. -/
inductive ApproveError where
  | notFound
  | invalidTransition
  | capacityExceeded
  | conflict
deriving DecidableEq, Repr

/-- Whether some other reservation holds the same stall in an active
(Pending or Confirmed) state — the I1 re-check at approval time. -/
def stallConflict (ledger : List ERes) (r : ERes) : Bool :=
  ledger.any (fun o => !(o.id == r.id) && o.stallId == r.stallId
    && (o.status == EStatus.pending || o.status == EStatus.confirmed))

/-- Set the status of the ledger entry with the given id. -/
def setStatus (ledger : List ERes) (rid : Nat) (s : EStatus) : List ERes :=
  ledger.map (fun r => if r.id == rid then { r with status := s } else r)

/-- Modelled from the spec: the server-side approve transition of the
Allocation Engine (absent from the checked sources, which contain only
its front-end caller handleApproveReservation). Per the spec: the
reservation must exist and be Pending, the vendor's current Confirmed
count must be strictly below 3 (else a CapacityExceeded error and no
state change), I1 must still hold on the stall (else a conflict error),
and only then is the Confirmed status committed. Errors leave the ledger
unchanged. -/
def approve (ledger : List ERes) (rid : Nat) : Option ApproveError × List ERes :=
  match ledger.find? (fun r => r.id == rid) with
  | none => (some .notFound, ledger)
  | some r =>
    if !(r.status == EStatus.pending) then (some .invalidTransition, ledger)
    else if 3 ≤ vendorConfirmedCount ledger r.vendorId then (some .capacityExceeded, ledger)
    else if stallConflict ledger r then (some .conflict, ledger)
    else (none, setStatus ledger rid EStatus.confirmed)

/-- A ledger in which vendor 7 already holds 3 Confirmed reservations
and a 4th, Pending one awaits approval. -/
def capLedger : List ERes :=
  [⟨1, 7, 101, .confirmed⟩, ⟨2, 7, 102, .confirmed⟩,
   ⟨3, 7, 103, .confirmed⟩, ⟨4, 7, 104, .pending⟩]

example : approve capLedger 4 = (some .capacityExceeded, capLedger) := by decide
example : (approve [⟨4, 7, 104, .pending⟩] 4).fst = none := by decide

end Engine

/-- Sample data used by concrete witnesses and counterexamples. -/
def threeConfirmed : List Reservation :=
  [⟨1, 2, "confirmed", "QR-1", ""⟩, ⟨2, 3, "confirmed", "QR-2", ""⟩,
   ⟨3, 4, "confirmed", "QR-3", ""⟩]

/-- A free (not reserved) stall used by concrete witnesses. -/
def freeStall : Stall := ⟨9, "A9", "small", "2x2", 5000, false⟩

/-- A stall flagged as reserved, used by concrete witnesses. -/
def takenStall : Stall := ⟨8, "B2", "medium", "3x3", 8000, true⟩

/-- A confirmed reservation used by concrete witnesses and
counterexamples. -/
def histRes : Reservation := ⟨1, 101, "confirmed", "QR-1", ""⟩

/-- A pending reservation used by concrete witnesses and
counterexamples. -/
def histPending : Reservation := ⟨2, 102, "pending", "", ""⟩

/-- C1: approving a Pending reservation whose vendor already holds 3
Confirmed reservations fails with the capacity error and leaves the
ledger (hence the reservation's Pending status) unchanged; a successful
approve commits only when the vendor's Confirmed count is strictly
below 3. Settled against the spec-modelled engine, the server-side
approve implementation being absent from the checked sources. -/
theorem approve_capacity_guard (ledger : List Engine.ERes) (rid : Nat) (r : Engine.ERes)
    (hfind : ledger.find? (fun x => x.id == rid) = some r)
    (hpend : r.status = Engine.EStatus.pending) :
    (3 ≤ Engine.vendorConfirmedCount ledger r.vendorId →
      Engine.approve ledger rid = (some Engine.ApproveError.capacityExceeded, ledger)) ∧
    ((Engine.approve ledger rid).fst = none →
      Engine.vendorConfirmedCount ledger r.vendorId < 3) := by
  constructor
  · intro hcap
    unfold Engine.approve
    rw [hfind]
    simp [hpend, hcap]
  · intro hok
    by_contra hge
    push_neg at hge
    unfold Engine.approve at hok
    rw [hfind] at hok
    simp [hpend, hge] at hok

/-- Witness for C1 on a concrete ledger where vendor 7 already holds 3
Confirmed reservations and reservation 4 is Pending. -/
theorem approve_capacity_guard_witness :
    Engine.approve Engine.capLedger 4
      = (some Engine.ApproveError.capacityExceeded, Engine.capLedger) :=
  (approve_capacity_guard Engine.capLedger 4 ⟨4, 7, 104, .pending⟩
    (by decide) rfl).1 (by decide)

/-- C2: once a vendor holds 3 or more confirmed reservations, clicking
any stall never opens the reservation modal (hence no create-reservation
call can be issued), and on a stall not blocked by the earlier
availability guards the refusal is the maximum-3 error. -/
theorem cap_blocks_selection (userReservations : List Reservation) (stall : Stall)
    (hcap : 3 ≤ confirmedReservationCount userReservations) :
    opensReservationModal (handleSelectStall userReservations stall) = false ∧
    (stall.is_reserved = false → hasConfirmedOn userReservations stall = false →
      handleSelectStall userReservations stall = SelectOutcome.errMaxThree) := by
  constructor
  · cases hr : stall.is_reserved <;>
      cases ho : hasConfirmedOn userReservations stall <;>
        simp [handleSelectStall, hr, ho, hcap, opensReservationModal]
  · intro hres hown
    simp [handleSelectStall, hres, hown, hcap]

/-- Witness for C2 on a vendor with exactly 3 confirmed reservations
clicking a free stall. -/
theorem cap_blocks_selection_witness :
    opensReservationModal (handleSelectStall threeConfirmed freeStall) = false ∧
    handleSelectStall threeConfirmed freeStall = SelectOutcome.errMaxThree :=
  ⟨(cap_blocks_selection threeConfirmed freeStall (by decide)).1,
   (cap_blocks_selection threeConfirmed freeStall (by decide)).2 (by decide) (by decide)⟩

/-- C3: a stall whose derived is_reserved flag is set, and on which the
current vendor holds no confirmed reservation, is refused with the
already-reserved error; the modal never opens (so no reservation request
is created), and the stall-card onClick guard does not even invoke
handleSelectStall. -/
theorem reserved_stall_refused (userReservations : List Reservation) (stall : Stall)
    (hres : stall.is_reserved = true)
    (hown : hasConfirmedOn userReservations stall = false) :
    handleSelectStall userReservations stall = SelectOutcome.errAlreadyReserved ∧
    opensReservationModal (handleSelectStall userReservations stall) = false ∧
    stallCardOnClick userReservations stall = none := by
  have h : handleSelectStall userReservations stall = SelectOutcome.errAlreadyReserved := by
    simp [handleSelectStall, hres, hown]
  exact ⟨h, by rw [h]; rfl, by simp [stallCardOnClick, hres]⟩

/-- Witness for C3 on a reserved stall with an empty reservation list. -/
theorem reserved_stall_refused_witness :
    handleSelectStall [] takenStall = SelectOutcome.errAlreadyReserved ∧
    opensReservationModal (handleSelectStall [] takenStall) = false ∧
    stallCardOnClick [] takenStall = none :=
  reserved_stall_refused [] takenStall (by decide) (by decide)

/-- C4: after the successful-approve local update, every list entry
carrying the approved id has status confirmed, and the Approve Request
action is rendered exactly for reservations whose status is pending. -/
theorem approve_updates_and_only_pending (l : List Reservation) (rid : Nat) :
    ((approveLocalUpdate l rid).all
      (fun r => !(r.id == rid) || (r.status == "confirmed"))) = true ∧
    ∀ s : String, ((staffActions s).contains StaffAction.approve) = (s == "pending") := by
  constructor
  · rw [List.all_eq_true]
    intro r hr
    rw [approveLocalUpdate, List.mem_map] at hr
    obtain ⟨a, _, rfl⟩ := hr
    cases h : (a.id == rid) <;> simp [h]
  · intro s
    by_cases hp : s = "pending"
    · subst hp; decide
    · have hp2 : (s == "pending") = false := by
        rw [beq_eq_false_iff_ne]; exact hp
      by_cases hc : s = "confirmed"
      · subst hc; simp [staffActions]
      · have hc2 : (s == "confirmed") = false := by
          rw [beq_eq_false_iff_ne]; exact hc
        simp [staffActions, hp2, hc2]

/-- C5 counterexample: the staff interface does not offer a cancel
action on a Pending reservation (the pending branch renders only
Approve Request and Reject Request), so cancel is not offered by both
interfaces exactly on the Pending and Confirmed states. -/
theorem staff_no_cancel_on_pending : StaffAction.cancel ∉ staffActions "pending" := by
  decide

/-- C5 amended: the vendor-facing Dashboard offers a cancel action
(Cancel Request or Cancel Booking, both invoking the cancel endpoint)
exactly on Pending and Confirmed reservations, while the staff-facing
Reservations page offers its Cancel Reservation action exactly on
Confirmed reservations (Pending ones get approve/reject instead). -/
theorem cancel_action_availability :
    ∀ s : String,
      vendorOffersCancel s = (s == "pending" || s == "confirmed") ∧
      staffOffersCancel s = (s == "confirmed") := by
  intro s
  by_cases hp : s = "pending"
  · subst hp; exact ⟨by decide, by decide⟩
  · have hp2 : (s == "pending") = false := by
      rw [beq_eq_false_iff_ne]; exact hp
    by_cases hc : s = "confirmed"
    · subst hc; exact ⟨by decide, by decide⟩
    · have hc2 : (s == "confirmed") = false := by
        rw [beq_eq_false_iff_ne]; exact hc
      constructor
      · simp [vendorOffersCancel, vendorExpandedPanel, panelActions, hp2, hc2]
      · simp [staffOffersCancel, staffActions, hp2, hc2]

/-- C6: when the staff member enters an empty reason the reject request
carries the default reason, and a non-empty entered reason is carried
verbatim. -/
theorem reject_reason_default (l : List Reservation) (rid : Nat) :
    sentReasonOf (handleRejectReservation (some "") l rid) = some "No reason provided" ∧
    ∀ s : String, s ≠ "" →
      sentReasonOf (handleRejectReservation (some s) l rid) = some s := by
  constructor
  · rfl
  · intro s hs
    have hs2 : (s == "") = false := by
      rw [beq_eq_false_iff_ne]; exact hs
    simp [handleRejectReservation, rejectSentReason, sentReasonOf, hs2]

/-- Witness for C6: empty reason defaults, the reason "duplicate" is
carried verbatim. -/
theorem reject_reason_default_witness :
    sentReasonOf (handleRejectReservation (some "") [] 1) = some "No reason provided" ∧
    sentReasonOf (handleRejectReservation (some "duplicate") [] 1) = some "duplicate" :=
  ⟨(reject_reason_default [] 1).1,
   (reject_reason_default [] 1).2 "duplicate" (by decide)⟩

/-- C7 counterexample: after the staff cancel (resp. reject) handler
succeeds, the targeted reservation is gone from the employee portal
reservations list — no entry with its id remains, contradicting the
claim that it stays present with its new status. -/
theorem cancelled_reservation_removed :
    (¬ ∃ r ∈ cancelLocalUpdate [histRes] 1, r.id = 1) ∧
    (¬ ∃ r ∈ rejectLocalUpdate [histPending] 2, r.id = 2) := by
  decide

/-- C7 amended: the staff cancel and reject handlers remove the targeted
reservation from the employee portal reservations list (local state):
no surviving entry carries its id, while every reservation with a
different id is retained. The spec-mandated server-side retention as
history is not what the cited handlers implement. -/
theorem cancel_reject_remove_from_list (l : List Reservation) (rid : Nat) :
    (∀ r ∈ cancelLocalUpdate l rid, r.id ≠ rid) ∧
    (∀ r ∈ l, r.id ≠ rid → r ∈ cancelLocalUpdate l rid) ∧
    (∀ r ∈ rejectLocalUpdate l rid, r.id ≠ rid) ∧
    (∀ r ∈ l, r.id ≠ rid → r ∈ rejectLocalUpdate l rid) := by
  refine ⟨?_, ?_, ?_, ?_⟩
  · intro r hr
    have h := (List.mem_filter.mp hr).2
    simpa using h
  · intro r hr hne
    exact List.mem_filter.mpr ⟨hr, by simpa using hne⟩
  · intro r hr
    have h := (List.mem_filter.mp hr).2
    simpa using h
  · intro r hr hne
    exact List.mem_filter.mpr ⟨hr, by simpa using hne⟩

/-- Witness for the amended C7: in a two-element list, cancelling (resp.
rejecting) reservation 1 keeps reservation 2. -/
theorem cancel_reject_remove_from_list_witness :
    histPending ∈ cancelLocalUpdate [histRes, histPending] 1 ∧
    histPending ∈ rejectLocalUpdate [histRes, histPending] 1 :=
  ⟨(cancel_reject_remove_from_list [histRes, histPending] 1).2.1
      histPending (by decide) (by decide),
   (cancel_reject_remove_from_list [histRes, histPending] 1).2.2.2
      histPending (by decide) (by decide)⟩

/-- C8: the vendor Dashboard renders the QR credential section exactly
when the reservation status is confirmed, and never for pending or
cancelled (or any other) statuses. -/
theorem qr_section_iff_confirmed :
    ∀ s : String, panelShowsQR (vendorExpandedPanel s) = (s == "confirmed") := by
  intro s
  by_cases hp : s = "pending"
  · subst hp; decide
  · have hp2 : (s == "pending") = false := by
      rw [beq_eq_false_iff_ne]; exact hp
    by_cases hc : s = "confirmed"
    · subst hc; decide
    · have hc2 : (s == "confirmed") = false := by
        rw [beq_eq_false_iff_ne]; exact hc
      simp [vendorExpandedPanel, panelShowsQR, hp2, hc2]

/-- C9: the approve local update preserves the list length and order,
maps the entry at every position either to itself (when its id differs
from the approved one) or to the same record with only the status field
replaced by confirmed, and in particular leaves id, stall reference, QR
payload and notes of every entry untouched. -/
theorem approve_local_frame (l : List Reservation) (rid : Nat) :
    (approveLocalUpdate l rid).length = l.length ∧
    (∀ i : Nat, (approveLocalUpdate l rid)[i]?
      = (l[i]?).map (fun r =>
          if r.id == rid then { r with status := "confirmed" } else r)) ∧
    (∀ i : Nat,
      ((approveLocalUpdate l rid)[i]?).map
          (fun r => (r.id, r.stall_id, r.qr_data, r.notes))
        = (l[i]?).map (fun r => (r.id, r.stall_id, r.qr_data, r.notes))) := by
  refine ⟨by simp [approveLocalUpdate], ?_, ?_⟩
  · intro i
    simp [approveLocalUpdate]
  · intro i
    cases h : l[i]? with
    | none => simp [approveLocalUpdate, h]
    | some r =>
      simp only [approveLocalUpdate, List.getElem?_map, h]
      by_cases hif : r.id = rid <;> simp [hif]

/-- C10: a dismissed rejection prompt (null reason) makes
handleRejectReservation return with no reject API call and the
reservations list unchanged. -/
theorem null_prompt_noop (l : List Reservation) (rid : Nat) :
    handleRejectReservation none l rid = RejectOutcome.noAction ∧
    listAfterReject (handleRejectReservation none l rid) l = l :=
  ⟨rfl, rfl⟩
